import Mathlib

/-!
Shallow embedding of the real-time collaboration layer of the StateFlow
backend (src/services/collaboration.service.ts and the mention-notification
service it calls).  JavaScript `Map` objects are modelled as insertion-ordered
association lists, JavaScript `Set` objects as insertion-ordered duplicate-free
lists, socket.io room membership as an association list from room key to the
member socket ids, and each socket event handler as a pure function from
server state (plus the handler's inputs) to the successor state together with
the list of emissions the handler performs, in program order.  Timestamps are
natural numbers (milliseconds); string timestamps that are only echoed back to
clients are not modelled.
-/

set_option autoImplicit false

namespace StateFlow

abbrev SocketId := String
abbrev UserId := String
abbrev WorkspaceId := String
abbrev PageId := String

/-- Association-list lookup, mirroring `Map.get` (first entry with the key). -/
def alistGet {κ α : Type} [DecidableEq κ] : List (κ × α) → κ → Option α
  | [], _ => none
  | (k', v) :: r, k => if k' = k then some v else alistGet r k

/-- In-place update of the value stored at a key, mirroring mutation of the
value object held in a `Map` (the entry keeps its position). -/
def alistUpdate {κ α : Type} [DecidableEq κ] : List (κ × α) → κ → α → List (κ × α)
  | [], _, _ => []
  | (k', v) :: r, k, v' => if k' = k then (k, v') :: r else (k', v) :: alistUpdate r k v'

/-- Entry removal, mirroring `Map.delete`. -/
def alistDelete {κ α : Type} [DecidableEq κ] : List (κ × α) → κ → List (κ × α)
  | [], _ => []
  | (k', v) :: r, k => if k' = k then alistDelete r k else (k', v) :: alistDelete r k

/-- Mirrors `Set.add`: appends the element unless already present. -/
def setAdd {α : Type} [DecidableEq α] (s : List α) (x : α) : List α :=
  if x ∈ s then s else s ++ [x]

/-- Mirrors `Set.delete`: removes the element. -/
def setDelete {α : Type} [DecidableEq α] : List α → α → List α
  | [], _ => []
  | y :: r, x => if y = x then setDelete r x else y :: setDelete r x

/-- socket.io room keys: `user:<id>`, `workspace:<id>`, `page:<id>`,
`project:<id>`. -/
inductive RoomKey : Type
  | user (userId : UserId)
  | workspace (workspaceId : WorkspaceId)
  | page (pageId : PageId)
  | project (projectId : String)
deriving DecidableEq, Repr

/-- The payload object of a `document-update`, modelled by the only field the
server inspects (`update.content`); `none` stands for an absent/falsy
`update`. -/
structure UpdateObj : Type where
  content : Option String
deriving DecidableEq, Repr

/-- JavaScript truthiness of an optional string field (absent, `null` and the
empty string are falsy). -/
def truthyStr : Option String → Bool
  | none => false
  | some s => s ≠ ""

/-- Outbound emission payloads used by the handlers under verification. -/
inductive EventPayload : Type
  | userJoined (userId name avatar : String)
  | userLeft (userId : UserId)
  | currentUsers (userIds : List UserId)
  | documentUpdate (update : Option UpdateObj) (userId : UserId) (socketId : SocketId)
  | mentionNotification (pageId workspaceId targetUserId : String)
deriving DecidableEq, Repr

/-- Where an emission is addressed: `socket.to(room).emit` (room minus the
sender), `io.to(room).emit` (whole room), or `socket.emit` (the socket
itself). -/
inductive EmitTarget : Type
  | roomExcept (room : RoomKey) (sender : SocketId)
  | room (room : RoomKey)
  | self (socketId : SocketId)
deriving DecidableEq, Repr

structure Emission : Type where
  target : EmitTarget
  payload : EventPayload
deriving DecidableEq, Repr

/-- Server state: socket.io room membership plus the
`connectedUsers : Map<workspaceId, Set<userId>>` presence registry of
`CollaborationServer`. -/
structure ServerState : Type where
  rooms : List (RoomKey × List SocketId)
  connectedUsers : List (WorkspaceId × List UserId)
deriving DecidableEq, Repr

def emptyState : ServerState := ⟨[], []⟩

/-- Mirrors `socket.join(room)`. -/
def roomJoin (rooms : List (RoomKey × List SocketId)) (r : RoomKey) (sid : SocketId) :
    List (RoomKey × List SocketId) :=
  match alistGet rooms r with
  | none => rooms ++ [(r, [sid])]
  | some ms => alistUpdate rooms r (setAdd ms sid)

/-- Mirrors `socket.leave(room)`. -/
def roomLeave (rooms : List (RoomKey × List SocketId)) (r : RoomKey) (sid : SocketId) :
    List (RoomKey × List SocketId) :=
  match alistGet rooms r with
  | none => rooms
  | some ms => alistUpdate rooms r (setDelete ms sid)

def roomMembers (st : ServerState) (r : RoomKey) : List SocketId :=
  (alistGet st.rooms r).getD []

/-- Rooms a socket currently belongs to. -/
def socketRooms (st : ServerState) (sid : SocketId) : List RoomKey :=
  (st.rooms.filter (fun p => decide (sid ∈ p.2))).map Prod.fst

/-- Delivery semantics: does socket `d` receive emission `e`, given room
membership `st`? -/
def receivesB (st : ServerState) (e : Emission) (d : SocketId) : Bool :=
  match e.target with
  | .roomExcept r sender => decide (d ∈ roomMembers st r) && decide (d ≠ sender)
  | .room r => decide (d ∈ roomMembers st r)
  | .self s => decide (d = s)

/-- Mirrors the `connection` handler's automatic
`socket.join(user:<userId>)`. -/
def connectionJoin (st : ServerState) (sid : SocketId) (uid : UserId) : ServerState :=
  { st with rooms := roomJoin st.rooms (.user uid) sid }

/-- Mirrors the `join-workspace` handler: join the workspace room, add the
user id to `connectedUsers[workspaceId]` (creating the set if absent), emit
`user-joined` to the rest of the workspace room, and send the
`current-users` snapshot (taken after the add) to the joining socket. -/
def joinWorkspace (st : ServerState) (sid : SocketId) (uid : UserId)
    (name avatar : String) (wid : WorkspaceId) : ServerState × List Emission :=
  let rooms' := roomJoin st.rooms (.workspace wid) sid
  let cu0 :=
    match alistGet st.connectedUsers wid with
    | none => st.connectedUsers ++ [(wid, [])]
    | some _ => st.connectedUsers
  let users := (alistGet cu0 wid).getD []
  let cu1 := alistUpdate cu0 wid (setAdd users uid)
  ({ rooms := rooms', connectedUsers := cu1 },
   [⟨.roomExcept (.workspace wid) sid, .userJoined uid name avatar⟩,
    ⟨.self sid, .currentUsers ((alistGet cu1 wid).getD [])⟩])

/-- Mirrors the `leave-workspace` handler: leave the room, delete the user id
from the workspace's set (dropping the set when it becomes empty), and emit
`user-left` to the remaining room members unconditionally. -/
def leaveWorkspace (st : ServerState) (sid : SocketId) (uid : UserId)
    (wid : WorkspaceId) : ServerState × List Emission :=
  let rooms' := roomLeave st.rooms (.workspace wid) sid
  let cu :=
    match alistGet st.connectedUsers wid with
    | none => st.connectedUsers
    | some users =>
      let users' := setDelete users uid
      if users'.length = 0 then alistDelete st.connectedUsers wid
      else alistUpdate st.connectedUsers wid users'
  ({ rooms := rooms', connectedUsers := cu },
   [⟨.roomExcept (.workspace wid) sid, .userLeft uid⟩])

/-- The `connectedUsers.forEach` loop of the `disconnect` handler: for every
workspace whose set contains the user's id, delete the id (dropping empty
sets) and emit `user-left` to that workspace room. -/
def disconnectLoop (sid : SocketId) (uid : UserId) :
    List WorkspaceId → List (WorkspaceId × List UserId) →
    List (WorkspaceId × List UserId) × List Emission
  | [], cu => (cu, [])
  | w :: ws, cu =>
    match alistGet cu w with
    | none => disconnectLoop sid uid ws cu
    | some users =>
      if uid ∈ users then
        let users' := setDelete users uid
        let cu' := if users'.length = 0 then alistDelete cu w else alistUpdate cu w users'
        let (cu'', ems) := disconnectLoop sid uid ws cu'
        (cu'', ⟨.roomExcept (.workspace w) sid, .userLeft uid⟩ :: ems)
      else disconnectLoop sid uid ws cu

/-- Mirrors the `disconnect` handler (the transport has already removed the
socket from all rooms). -/
def disconnect (st : ServerState) (sid : SocketId) (uid : UserId) :
    ServerState × List Emission :=
  let (cu', ems) := disconnectLoop sid uid (st.connectedUsers.map Prod.fst) st.connectedUsers
  ({ rooms := st.rooms.map (fun p => (p.1, setDelete p.2 sid)), connectedUsers := cu' }, ems)

end StateFlow

namespace StateFlow

/-! Handshake authentication (`setupMiddleware`). -/

/-- The decoded JWT payload shapes the middleware tolerates; each identity
claim field is optional.  `mongoId` embeds the source field `_id` and
`idField` the source field `id`. -/
structure JwtPayload : Type where
  userId : Option String
  mongoId : Option String
  idField : Option String
  sub : Option String
deriving DecidableEq, Repr

/-- Outcome of `jwt.verify`: the token is absent, verification throws
(unsigned, malformed or expired), or it yields a payload. -/
inductive TokenState : Type
  | absent
  | invalid
  | valid (payload : JwtPayload)
deriving DecidableEq, Repr

/-- The resolved user record (`User.findById` result). -/
structure UserRec : Type where
  uid : String
  name : String
  profilePicture : String
deriving DecidableEq, Repr

/-- JavaScript `a || b` on optional string fields: falls through on absent or
empty values. -/
def jsOr (a b : Option String) : Option String :=
  match a with
  | none => b
  | some s => if s = "" then b else some s

/-- Mirrors `decoded?.userId || decoded?._id || decoded?.id || decoded?.sub`:
the first present (truthy) claim field wins. -/
def decodedUserId (p : JwtPayload) : Option String :=
  jsOr p.userId (jsOr p.mongoId (jsOr p.idField p.sub))

inductive AuthOutcome : Type
  | authenticationError
  | userNotFound
  | success (user : UserRec)
deriving DecidableEq, Repr

/-- Mirrors `setupMiddleware`: missing token or a throwing `jwt.verify` gives
`Authentication error`; otherwise a single `User.findById` on the first
present claim field, with `User not found` when it does not resolve. -/
def authenticate (findUser : String → Option UserRec) : TokenState → AuthOutcome
  | .absent => .authenticationError
  | .invalid => .authenticationError
  | .valid p =>
    match decodedUserId p with
    | none => .userNotFound
    | some i =>
      match findUser i with
      | none => .userNotFound
      | some u => .success u

end StateFlow

namespace StateFlow

/-! Mention notifications (`createMentionNotificationService` in
notification.service.ts and `detectMentions` plus the `document-update`
handler in collaboration.service.ts).  External asynchronous collaborators
(database lookups) are passed in as `Except`-valued functions so that their
possible rejections are part of the model. -/

/-- A persisted `Notification` document, restricted to the fields the mention
pipeline reads or writes (`data.mentionedBy` is `mentionedBy` here). -/
structure Notif : Type where
  userId : String
  workspaceId : String
  pageId : String
  typ : String
  mentionedBy : String
  createdAt : Nat
deriving DecidableEq, Repr

def suppressionWindowMs : Nat := 5 * 60 * 1000

/-- The `Notification.findOne` filter used to detect a recent duplicate
mention: `createdAt >= now - 5 minutes` is expressed on naturals as
`now <= createdAt + 5 minutes`. -/
def isRecentMention (now : Nat) (target pageId author : String) (n : Notif) : Bool :=
  n.userId == target && n.pageId == pageId && n.typ == "mention" &&
    n.mentionedBy == author && decide (now ≤ n.createdAt + suppressionWindowMs)

/-- Argument record of `createMentionNotificationService`. -/
structure MentionData : Type where
  mentionedUserId : String
  mentionedByUserId : String
  workspaceId : String
  pageId : String
  pageTitle : String
  workspaceName : String
deriving DecidableEq, Repr

/-- Mirrors `createMentionNotificationService`: resolve both users (throwing
if either is missing), then either return without persisting when a matching
mention notification from the last five minutes exists, or persist a new
notification stamped `now`.  The returned flag says whether a new
notification was persisted. -/
def createMentionNotificationService (findUser : String → Except String (Option String))
    (db : List Notif) (now : Nat) (d : MentionData) :
    Except String (List Notif × Bool) := do
  let mentionedUser ← findUser d.mentionedUserId
  match mentionedUser with
  | none => throw "Mentioned user not found"
  | some _ =>
    let mentionedByUser ← findUser d.mentionedByUserId
    match mentionedByUser with
    | none => throw "Mentioning user not found"
    | some _ =>
      match db.find? (isRecentMention now d.mentionedUserId d.pageId d.mentionedByUserId) with
      | some _ => pure (db, false)
      | none =>
        pure (db ++ [⟨d.mentionedUserId, d.workspaceId, d.pageId, "mention",
                      d.mentionedByUserId, now⟩], true)

/-- A `Page` document restricted to the fields `detectMentions` reads. -/
structure PageRec : Type where
  title : String
  workspace : String
deriving DecidableEq, Repr

/-- The external collaborators of the mention pipeline.  `extract` is the
mention-span regex scan over the HTML content, returning the `data-id`
attributes in match order; the three finders model `Page.findById`,
`Workspace.findById` (restricted to the name the pipeline uses) and
`User.findById`, each able to reject. -/
structure MentionEnv : Type where
  extract : String → List String
  findPage : PageId → Except String (Option PageRec)
  findWorkspaceName : String → Except String (Option String)
  findUser : String → Except String (Option String)

/-- The per-mention loop of `detectMentions`: each iteration runs the
notification service inside its own try/catch, so a failing mention is
skipped while the rest proceed; after a successful service call the
real-time `mention-notification` is emitted to the target's user room. -/
def processMentionLoop (env : MentionEnv) (pageTitle workspaceId workspaceName : String)
    (pageId : PageId) (author : String) (now : Nat) :
    List String → List Notif → List Notif × List Emission
  | [], db => (db, [])
  | t :: ts, db =>
    match createMentionNotificationService env.findUser db now
        ⟨t, author, workspaceId, pageId, pageTitle, workspaceName⟩ with
    | .error _ => processMentionLoop env pageTitle workspaceId workspaceName pageId author now ts db
    | .ok (db', _) =>
      let (db'', ems) :=
        processMentionLoop env pageTitle workspaceId workspaceName pageId author now ts db'
      (db'', ⟨.room (.user t), .mentionNotification pageId workspaceId t⟩ :: ems)

/-- The body of `detectMentions` up to its outer try/catch: collect the
extracted mention ids that are truthy and not the author, return early when
there are none or when the page or workspace cannot be found, then run the
per-mention loop. -/
def detectMentionsBody (env : MentionEnv) (db : List Notif) (now : Nat)
    (content : String) (pageId : PageId) (author authorName : String) :
    Except String (List Notif × List Emission) := do
  let mentions := (env.extract content).filter (fun t => t ≠ "" && t ≠ author)
  if mentions.isEmpty then
    pure (db, [])
  else
    let page? ← env.findPage pageId
    match page? with
    | none => pure (db, [])
    | some page =>
      let ws? ← env.findWorkspaceName page.workspace
      match ws? with
      | none => pure (db, [])
      | some workspaceName =>
        pure (processMentionLoop env page.title page.workspace workspaceName
          pageId author now mentions db)

/-- Mirrors `detectMentions`: the whole body is wrapped in a catch that logs
and discards any failure. -/
def detectMentions (env : MentionEnv) (db : List Notif) (now : Nat)
    (content : String) (pageId : PageId) (author authorName : String) :
    List Notif × List Emission :=
  match detectMentionsBody env db now content pageId author authorName with
  | .error _ => (db, [])
  | .ok r => r

/-- The broadcast `socket.to(page:<pageId>).emit('document-update', ...)`
performed for every `document-update`. -/
def documentUpdateBroadcast (sid : SocketId) (uid : UserId) (pageId : PageId)
    (update : Option UpdateObj) : Emission :=
  ⟨.roomExcept (.page pageId) sid, .documentUpdate update uid sid⟩

/-- The gate `data.update && data.update.content` deciding whether mentions
are scanned. -/
def mentionGate (update : Option UpdateObj) : Bool :=
  match update with
  | none => false
  | some u => truthyStr u.content

/-- The `data.update.content` string passed to `detectMentions` when the gate
holds. -/
def contentOf (update : Option UpdateObj) : String :=
  ((update.map UpdateObj.content).getD none).getD ""

/-- Mirrors the `document-update` handler: always broadcast to the rest of
the page room first; scan for mentions only when the payload passes
`mentionGate`.  The handler does not change room membership or presence. -/
def documentUpdateHandler (env : MentionEnv) (st : ServerState) (db : List Notif)
    (now : Nat) (sid : SocketId) (uid uname : String) (pageId : PageId)
    (update : Option UpdateObj) : ServerState × List Notif × List Emission :=
  let broadcast := documentUpdateBroadcast sid uid pageId update
  if mentionGate update then
    let (db', ems) := detectMentions env db now (contentOf update) pageId uid uname
    (st, db', broadcast :: ems)
  else
    (st, db, [broadcast])

end StateFlow

namespace StateFlow

/-! Concrete external environments used by witnesses and counterexamples. -/

/-- An environment in which every external database collaborator rejects. -/
def envErr : MentionEnv :=
  ⟨fun _ => ["b"], fun _ => .error "db down", fun _ => .error "db down",
   fun _ => .error "db down"⟩

/-- An environment in which one mention of user `b` is extracted and all
lookups succeed. -/
def envOk : MentionEnv :=
  ⟨fun _ => ["b"], fun _ => .ok (some ⟨"T", "w"⟩), fun _ => .ok (some "WS"),
   fun _ => .ok (some "N")⟩

/-- A notification store holding one mention notification for target `b` by
author `a` on page `p`, created at time 1000. -/
def dbRecent : List Notif := [⟨"b", "w", "p", "mention", "a", 1000⟩]

end StateFlow

namespace StateFlow

/-- Claim C1, counterexample.  Presence is not reference-counted: with two
simultaneous connections `s1`, `s2` of user `u` joined to workspace `W`, the
presence entry holds `u` once (a set, not a count of 2); after the first
`leave-workspace` the entry for `W` is already gone, so the user does not
remain online; and the two leaves together emit two `user-left` events for
`u`, not exactly one. -/
theorem C1_counterexample :
    alistGet ((joinWorkspace (joinWorkspace emptyState "s1" "u" "N" "A" "W").1
      "s2" "u" "N" "A" "W").1).connectedUsers "W" = some ["u"] ∧
    alistGet ((leaveWorkspace
      (joinWorkspace (joinWorkspace emptyState "s1" "u" "N" "A" "W").1
        "s2" "u" "N" "A" "W").1 "s1" "u" "W").1).connectedUsers "W" = none ∧
    ((leaveWorkspace
      (joinWorkspace (joinWorkspace emptyState "s1" "u" "N" "A" "W").1
        "s2" "u" "N" "A" "W").1 "s1" "u" "W").2 ++
     (leaveWorkspace (leaveWorkspace
      (joinWorkspace (joinWorkspace emptyState "s1" "u" "N" "A" "W").1
        "s2" "u" "N" "A" "W").1 "s1" "u" "W").1 "s2" "u" "W").2).countP
        (fun e => e.payload = .userLeft "u") = 2 := by
  refine ⟨by decide, by decide, by decide⟩

/-- Claim C1, amended.  Presence is a per-workspace set of user ids: a second
simultaneous connection of the same user leaves the entry at `[u]`; the first
`leave-workspace` already removes the user's entry for the workspace and
emits `user-left` to the remaining room members; the second leave emits
another `user-left`. -/
theorem C1_amended_presence (w u s1 s2 n a : String) :
    alistGet ((joinWorkspace (joinWorkspace emptyState s1 u n a w).1
      s2 u n a w).1).connectedUsers w = some [u] ∧
    (leaveWorkspace (joinWorkspace (joinWorkspace emptyState s1 u n a w).1
      s2 u n a w).1 s1 u w).1.connectedUsers = [] ∧
    (leaveWorkspace (joinWorkspace (joinWorkspace emptyState s1 u n a w).1
      s2 u n a w).1 s1 u w).2
      = [⟨.roomExcept (.workspace w) s1, .userLeft u⟩] ∧
    (leaveWorkspace (leaveWorkspace (joinWorkspace (joinWorkspace emptyState
      s1 u n a w).1 s2 u n a w).1 s1 u w).1 s2 u w).2
      = [⟨.roomExcept (.workspace w) s2, .userLeft u⟩] := by
  refine ⟨?_, ?_, ?_, ?_⟩ <;>
    simp [joinWorkspace, leaveWorkspace, emptyState, alistGet, alistUpdate,
      alistDelete, setAdd, setDelete, roomJoin, roomLeave]

/-- Claim C2.  A `document-update` from socket `sid` on page `pid` leaves the
server state unchanged, its first emission is the broadcast to the page room
excluding the sender, and a socket receives that broadcast exactly when it is
currently in page-room `pid` and is not the sender. -/
theorem C2_document_update_broadcast (env : MentionEnv) (st : ServerState)
    (db : List Notif) (now : Nat) (sid uid uname pid : String)
    (update : Option UpdateObj) :
    (documentUpdateHandler env st db now sid uid uname pid update).1 = st ∧
    ((documentUpdateHandler env st db now sid uid uname pid update).2.2).head?
      = some (documentUpdateBroadcast sid uid pid update) ∧
    ∀ d : SocketId, receivesB st (documentUpdateBroadcast sid uid pid update) d = true ↔
      (d ∈ roomMembers st (.page pid) ∧ d ≠ sid) := by
  refine ⟨?_, ?_, ?_⟩
  · cases h : mentionGate update <;> simp [documentUpdateHandler, h]
  · cases h : mentionGate update <;> simp [documentUpdateHandler, h]
  · intro d
    simp [receivesB, documentUpdateBroadcast, Bool.and_eq_true, decide_eq_true_iff]

/-- Claim C3, counterexample.  When `sx` (user `x`) joins workspace `W` where
`sy` (user `y`) is already online, the `current-users` snapshot sent to `sx`
is `[y, x]` — it reflects presence after the join and includes `x`'s own user
id — and not `[y]` as the claim states. -/
theorem C3_counterexample :
    (joinWorkspace (joinWorkspace emptyState "sy" "y" "NY" "AY" "W").1
      "sx" "x" "NX" "AX" "W").2.getLast? =
      some ⟨.self "sx", .currentUsers ["y", "x"]⟩ ∧
    ¬ ((joinWorkspace (joinWorkspace emptyState "sy" "y" "NY" "AY" "W").1
      "sx" "x" "NX" "AX" "W").2.getLast? =
      some ⟨.self "sx", .currentUsers ["y"]⟩) := by
  refine ⟨by decide, by decide⟩

/-- Claim C3, amended.  When `sx` (user `x`) joins workspace `w` where `sy`
(user `y`) is already online, `sx` is sent `current-users=[y, x]` (the
snapshot taken after its own join, including itself); `sy` receives the
`user-joined` event for `x`; `sx` does not receive that `user-joined` event
about itself. -/
theorem C3_amended_current_users (w x y sx sy nx ax ny ay : String)
    (hxy : x ≠ y) (hs : sx ≠ sy) :
    (joinWorkspace (joinWorkspace emptyState sy y ny ay w).1 sx x nx ax w).2 =
      [⟨.roomExcept (.workspace w) sx, .userJoined x nx ax⟩,
       ⟨.self sx, .currentUsers [y, x]⟩] ∧
    receivesB (joinWorkspace (joinWorkspace emptyState sy y ny ay w).1 sx x nx ax w).1
      ⟨.roomExcept (.workspace w) sx, .userJoined x nx ax⟩ sy = true ∧
    receivesB (joinWorkspace (joinWorkspace emptyState sy y ny ay w).1 sx x nx ax w).1
      ⟨.roomExcept (.workspace w) sx, .userJoined x nx ax⟩ sx = false := by
  refine ⟨?_, ?_, ?_⟩ <;>
    simp [joinWorkspace, emptyState, alistGet, alistUpdate, setAdd, roomJoin,
      receivesB, roomMembers, hxy, hs, Ne.symm hxy, Ne.symm hs]

/-- Claim C3, amended, witness at concrete inputs. -/
theorem C3_amended_current_users_witness :
    (joinWorkspace (joinWorkspace emptyState "sy" "y" "NY" "AY" "W").1
      "sx" "x" "NX" "AX" "W").2 =
      [⟨.roomExcept (.workspace "W") "sx", .userJoined "x" "NX" "AX"⟩,
       ⟨.self "sx", .currentUsers ["y", "x"]⟩] ∧
    receivesB (joinWorkspace (joinWorkspace emptyState "sy" "y" "NY" "AY" "W").1
      "sx" "x" "NX" "AX" "W").1
      ⟨.roomExcept (.workspace "W") "sx", .userJoined "x" "NX" "AX"⟩ "sy" = true ∧
    receivesB (joinWorkspace (joinWorkspace emptyState "sy" "y" "NY" "AY" "W").1
      "sx" "x" "NX" "AX" "W").1
      ⟨.roomExcept (.workspace "W") "sx", .userJoined "x" "NX" "AX"⟩ "sx" = false :=
  C3_amended_current_users "W" "x" "y" "sx" "sy" "NX" "AX" "NY" "AY"
    (by decide) (by decide)

/-- Claim C4, counterexample.  User `u` already has connection `s1` in
workspace `W`; when its second connection `s2` joins, a `user-joined` event
is still emitted to the rest of the workspace room, although the claim states
none is emitted for a non-first connection. -/
theorem C4_counterexample :
    ((joinWorkspace (joinWorkspace emptyState "s1" "u" "N" "A" "W").1
      "s2" "u" "N" "A" "W").2).head? =
      some ⟨.roomExcept (.workspace "W") "s2", .userJoined "u" "N" "A"⟩ := by
  decide

/-- Claim C4, amended.  Every `join-workspace` call emits `user-joined` to the
other members of the workspace room, unconditionally — whether or not the
joining user already has another connection there. -/
theorem C4_amended_user_joined_always (st : ServerState) (sid uid n a w : String) :
    ((joinWorkspace st sid uid n a w).2).head? =
      some ⟨.roomExcept (.workspace w) sid, .userJoined uid n a⟩ := by
  simp [joinWorkspace]

/-- Claim C5.  The handshake succeeds exactly when the token is present,
verifies, and its first present identity-claim field resolves to an existing
user record (it fails with an error in every other case); and a fresh
authenticated connection is automatically joined to exactly its own user
room and no other room. -/
theorem C5_handshake_auth (findUser : String → Option UserRec) (t : TokenState) :
    ((∃ u, authenticate findUser t = .success u) ↔
      (∃ p i u, t = .valid p ∧ decodedUserId p = some i ∧ findUser i = some u)) ∧
    ∀ sid uid : String, socketRooms (connectionJoin emptyState sid uid) sid = [.user uid] := by
  constructor
  · cases t with
    | absent => simp [authenticate]
    | invalid => simp [authenticate]
    | valid p =>
      cases hd : decodedUserId p with
      | none => simp [authenticate, hd]
      | some i =>
        cases hf : findUser i with
        | none => simp [authenticate, hd, hf]
        | some u => simp [authenticate, hd, hf]
  · intro sid uid
    simp [socketRooms, connectionJoin, emptyState, roomJoin, alistGet, setAdd]

/-- Claim C6, counterexample.  The payload carries `userId = "a"` (present
but not resolvable) and `sub = "b"` (resolvable): the middleware rejects the
handshake with `User not found` instead of trying the later claim field, so
later claim fields are not tried when an earlier present one fails to
resolve. -/
theorem C6_counterexample :
    authenticate (fun i => if i = "b" then some ⟨"b", "Bob", "pic"⟩ else none)
      (.valid ⟨some "a", none, none, some "b"⟩) = .userNotFound ∧
    (fun i => if i = "b" then some (⟨"b", "Bob", "pic"⟩ : UserRec) else none) "b"
      = some ⟨"b", "Bob", "pic"⟩ := by
  constructor <;> decide

/-- Claim C6, amended.  Credential decoding picks the first present (truthy)
claim field in the order userId, `_id`, id, sub, and performs a single lookup
on it: when `userId` is present, the handshake outcome is decided entirely by
whether that one field resolves, regardless of the later fields. -/
theorem C6_amended_first_present_claim (findUser : String → Option UserRec)
    (p : JwtPayload) (a : String) (hu : p.userId = some a) (ha : a ≠ "") :
    authenticate findUser (.valid p) =
      (match findUser a with
       | none => .userNotFound
       | some u => .success u) := by
  cases hf : findUser a <;>
    simp [authenticate, decodedUserId, jsOr, hu, ha, hf]

/-- Claim C6, amended, witness at concrete inputs. -/
theorem C6_amended_first_present_claim_witness :
    authenticate (fun i => if i = "a" then some ⟨"a", "Al", "p"⟩ else none)
      (.valid ⟨some "a", none, none, some "b"⟩) = .success ⟨"a", "Al", "p"⟩ := by
  have h := C6_amended_first_present_claim
    (fun i => if i = "a" then some ⟨"a", "Al", "p"⟩ else none)
    ⟨some "a", none, none, some "b"⟩ "a" rfl (by decide)
  simpa using h

/-- Claim C7, counterexample.  The store holds a mention notification for
(target `b`, page `p`, author `a`) created at time 1000, and a repeat mention
is processed at time 2000 (within the 5-minute window, so the suppression
condition holds): no additional notification is persisted, but a
`mention-notification` is still emitted to `b`'s user room, contradicting the
claim that no such event is emitted. -/
theorem C7_counterexample :
    (dbRecent.find? (isRecentMention 2000 "b" "p" "a")).isSome = true ∧
    (detectMentions envOk dbRecent 2000 "c" "p" "a" "A").1 = dbRecent ∧
    (detectMentions envOk dbRecent 2000 "c" "p" "a" "A").2
      = [⟨.room (.user "b"), .mentionNotification "p" "w" "b"⟩] := by
  refine ⟨by decide, by decide, by decide⟩

/-- Claim C7, amended.  For a single extracted mention of `b` by author `a`
on page `pid` with all lookups succeeding: if a persisted mention
notification for (b, pid, a) from the last five minutes exists, no new
notification is persisted but `mention-notification` is still emitted to
`b`'s user room; otherwise a notification stamped with the current time is
persisted (serving as the suppression record) and the event is emitted — in
particular a repeat mention after the window, when no stored record is
recent, persists a new notification. -/
theorem C7_amended_mention_suppression (env : MentionEnv) (db : List Notif)
    (now : Nat) (content pid a aname b title wsid wsname bn an : String)
    (he : env.extract content = [b]) (hb0 : b ≠ "") (hba : b ≠ a)
    (hp : env.findPage pid = .ok (some ⟨title, wsid⟩))
    (hw : env.findWorkspaceName wsid = .ok (some wsname))
    (hub : env.findUser b = .ok (some bn))
    (hua : env.findUser a = .ok (some an)) :
    detectMentions env db now content pid a aname =
      if (db.find? (isRecentMention now b pid a)).isSome then
        (db, [⟨.room (.user b), .mentionNotification pid wsid b⟩])
      else
        (db ++ [⟨b, wsid, pid, "mention", a, now⟩],
         [⟨.room (.user b), .mentionNotification pid wsid b⟩]) := by
  cases hfind : db.find? (isRecentMention now b pid a) <;>
    simp [detectMentions, detectMentionsBody, processMentionLoop,
      createMentionNotificationService, he, hb0, hba, hp, hw, hub, hua, hfind,
      Except.instMonad, Except.bind, Except.pure]

/-- Claim C7, amended, witness: first mention against an empty store persists
a notification stamped with the current time and emits the event. -/
theorem C7_amended_mention_suppression_witness :
    detectMentions envOk [] 0 "c" "p" "a" "A"
      = ([⟨"b", "w", "p", "mention", "a", 0⟩],
         [⟨.room (.user "b"), .mentionNotification "p" "w" "b"⟩]) := by
  have h := C7_amended_mention_suppression envOk [] 0 "c" "p" "a" "A" "b"
    "T" "w" "WS" "N" "N" rfl (by decide) (by decide) rfl rfl rfl rfl
  simpa using h

/-- Claim C8.  For every environment — in particular ones whose page,
workspace or user lookups reject — the `document-update` handler returns
normally with the page-room broadcast as its first emission; and whenever the
mention pipeline body fails, the handler's result is exactly the broadcast
with the state and store untouched, so no pipeline failure propagates or
suppresses the broadcast. -/
theorem C8_broadcast_isolated (env : MentionEnv) (st : ServerState)
    (db : List Notif) (now : Nat) (sid uid uname pid : String)
    (update : Option UpdateObj) :
    ((documentUpdateHandler env st db now sid uid uname pid update).2.2).head?
      = some (documentUpdateBroadcast sid uid pid update) ∧
    ∀ e : String,
      detectMentionsBody env db now (contentOf update) pid uid uname = .error e →
      documentUpdateHandler env st db now sid uid uname pid update
        = (st, db, [documentUpdateBroadcast sid uid pid update]) := by
  constructor
  · cases h : mentionGate update <;> simp [documentUpdateHandler, h]
  · intro e he
    cases h : mentionGate update <;>
      simp [documentUpdateHandler, h, detectMentions, he]

/-- Claim C8, witness: with every database collaborator rejecting, the
handler still returns the broadcast alone. -/
theorem C8_broadcast_isolated_witness :
    documentUpdateHandler envErr emptyState [] 0 "s" "u" "N" "p" (some ⟨some "c"⟩)
      = (emptyState, [], [documentUpdateBroadcast "s" "u" "p" (some ⟨some "c"⟩)]) :=
  (C8_broadcast_isolated envErr emptyState [] 0 "s" "u" "N" "p"
    (some ⟨some "c"⟩)).2 "db down" rfl

/-- Claim C9, counterexample.  User `u` has connection `s1` joined to
workspace `W1` and connection `s2` joined to `W2` and `W3`.  Although `s2` is
not a member of `W1`'s room, its abrupt disconnect removes `u` from `W1`'s
presence as well — the cleanup is keyed by user id, affecting a workspace
this connection did not join. -/
theorem C9_counterexample :
    alistGet ((joinWorkspace (joinWorkspace (joinWorkspace emptyState
      "s1" "u" "N" "A" "W1").1 "s2" "u" "N" "A" "W2").1
      "s2" "u" "N" "A" "W3").1).connectedUsers "W1" = some ["u"] ∧
    ¬ ("s2" ∈ roomMembers ((joinWorkspace (joinWorkspace (joinWorkspace emptyState
      "s1" "u" "N" "A" "W1").1 "s2" "u" "N" "A" "W2").1
      "s2" "u" "N" "A" "W3").1) (.workspace "W1")) ∧
    alistGet ((disconnect ((joinWorkspace (joinWorkspace (joinWorkspace emptyState
      "s1" "u" "N" "A" "W1").1 "s2" "u" "N" "A" "W2").1
      "s2" "u" "N" "A" "W3").1) "s2" "u").1).connectedUsers "W1" = none := by
  refine ⟨by decide, by decide, by decide⟩

/-- Claim C9, amended.  Disconnect cleanup is keyed by the user's id: with
`s1` (user `u`) in `w1` and `s2` (same user) in `w2` and `w3`, the abrupt
disconnect of `s2` removes `u` from every workspace whose presence set
contains `u` — including `w1`, which `s2` never joined — emitting exactly one
`user-left` per such workspace in registry order, and its effect on the state
equals explicit `leave-workspace` calls by `s2` for `w1`, `w2` and `w3`. -/
theorem C9_amended_disconnect_cleanup (u s1 s2 n a w1 w2 w3 : String)
    (h12 : w1 ≠ w2) (h13 : w1 ≠ w3) (h23 : w2 ≠ w3) (hs : s1 ≠ s2) :
    (disconnect
      (joinWorkspace (joinWorkspace (joinWorkspace emptyState s1 u n a w1).1
        s2 u n a w2).1 s2 u n a w3).1 s2 u).1 =
    (leaveWorkspace (leaveWorkspace (leaveWorkspace
      (joinWorkspace (joinWorkspace (joinWorkspace emptyState s1 u n a w1).1
        s2 u n a w2).1 s2 u n a w3).1 s2 u w1).1 s2 u w2).1 s2 u w3).1 ∧
    (disconnect
      (joinWorkspace (joinWorkspace (joinWorkspace emptyState s1 u n a w1).1
        s2 u n a w2).1 s2 u n a w3).1 s2 u).2 =
      [⟨.roomExcept (.workspace w1) s2, .userLeft u⟩,
       ⟨.roomExcept (.workspace w2) s2, .userLeft u⟩,
       ⟨.roomExcept (.workspace w3) s2, .userLeft u⟩] ∧
    s2 ∉ roomMembers
      (joinWorkspace (joinWorkspace (joinWorkspace emptyState s1 u n a w1).1
        s2 u n a w2).1 s2 u n a w3).1 (.workspace w1) := by
  refine ⟨?_, ?_, ?_⟩ <;>
    simp [disconnect, disconnectLoop, joinWorkspace, leaveWorkspace, emptyState,
      alistGet, alistUpdate, alistDelete, setAdd, setDelete, roomJoin, roomLeave,
      roomMembers, h12, h13, h23, hs, Ne.symm h12, Ne.symm h13, Ne.symm h23,
      Ne.symm hs]

/-- Claim C9, amended, witness at concrete inputs. -/
theorem C9_amended_disconnect_cleanup_witness :
    (disconnect
      (joinWorkspace (joinWorkspace (joinWorkspace emptyState "s1" "u" "N" "A" "W1").1
        "s2" "u" "N" "A" "W2").1 "s2" "u" "N" "A" "W3").1 "s2" "u").1 =
    (leaveWorkspace (leaveWorkspace (leaveWorkspace
      (joinWorkspace (joinWorkspace (joinWorkspace emptyState "s1" "u" "N" "A" "W1").1
        "s2" "u" "N" "A" "W2").1 "s2" "u" "N" "A" "W3").1 "s2" "u" "W1").1
        "s2" "u" "W2").1 "s2" "u" "W3").1 ∧
    (disconnect
      (joinWorkspace (joinWorkspace (joinWorkspace emptyState "s1" "u" "N" "A" "W1").1
        "s2" "u" "N" "A" "W2").1 "s2" "u" "N" "A" "W3").1 "s2" "u").2 =
      [⟨.roomExcept (.workspace "W1") "s2", .userLeft "u"⟩,
       ⟨.roomExcept (.workspace "W2") "s2", .userLeft "u"⟩,
       ⟨.roomExcept (.workspace "W3") "s2", .userLeft "u"⟩] ∧
    "s2" ∉ roomMembers
      (joinWorkspace (joinWorkspace (joinWorkspace emptyState "s1" "u" "N" "A" "W1").1
        "s2" "u" "N" "A" "W2").1 "s2" "u" "N" "A" "W3").1 (.workspace "W1") :=
  C9_amended_disconnect_cleanup "u" "s1" "s2" "N" "A" "W1" "W2" "W3"
    (by decide) (by decide) (by decide) (by decide)

/-- Claim C10.  The mention scan is gated exactly on a present `update`
object whose `content` field is a truthy string; and whenever the gate is
false the handler's entire effect is the broadcast — the state and the
notification store are untouched and no other emission occurs. -/
theorem C10_mention_gate (env : MentionEnv) (st : ServerState) (db : List Notif)
    (now : Nat) (sid uid uname pid : String) (update : Option UpdateObj) :
    (mentionGate update = true ↔
      ∃ u c, update = some u ∧ u.content = some c ∧ c ≠ "") ∧
    (mentionGate update = false →
      documentUpdateHandler env st db now sid uid uname pid update
        = (st, db, [documentUpdateBroadcast sid uid pid update])) := by
  constructor
  · cases update with
    | none => simp [mentionGate]
    | some u =>
      cases hc : u.content with
      | none => simp [mentionGate, truthyStr, hc]
      | some c => simp [mentionGate, truthyStr, hc]
  · intro h
    simp [documentUpdateHandler, h]

/-- Claim C10, witness: an update payload without `content` is broadcast with
no mention processing. -/
theorem C10_mention_gate_witness :
    mentionGate none = false ∧
    documentUpdateHandler envErr emptyState [] 0 "s" "u" "N" "p" none
      = (emptyState, [], [documentUpdateBroadcast "s" "u" "p" none]) :=
  ⟨rfl, (C10_mention_gate envErr emptyState [] 0 "s" "u" "N" "p" none).2 rfl⟩

end StateFlow
